import Mathlib

/-!
Verification development for the meerkat collaborative scene-synchronization
server (`backend/meerkat-server`).  The Rust sources are shallowly embedded:

* `DashMap<K, V>` is modelled as an association list `List (K × V)` with
  unique keys in actual program states; `insert` overwrites the existing
  entry in place (or conses a new one), `remove` filters the key out, and
  `get` returns the first matching value.
* `Uuid` values are modelled as `Nat`.
* A connection's `mpsc::Sender<String>` outbound sink (capacity 32) is
  modelled by the queue of messages currently buffered in its channel, a
  `List ServerEvent`; `try_send` appends when the queue holds fewer than 32
  messages and fails otherwise.  Messages are kept as typed `ServerEvent`
  values rather than their JSON serializations (serialization is injective
  and the dispatcher never inspects the text again).
* `now_ms()` and `Uuid::new_v4()` are impure inputs of `dispatch`; they are
  passed in as the `now` and `freshId` arguments.
-/

set_option maxHeartbeats 1000000
set_option linter.unusedSectionVars false

namespace Meerkat

/-- Model of `uuid::Uuid` (an opaque identifier; only equality is used). -/
abbrev Uuid := Nat

/-! ## Association-list model of `DashMap` -/

section AssocMap

variable {K V A : Type} [BEq K]

/-- Model of `DashMap::get`: first value stored under key `k`. -/
def getValue? : List (K × V) → K → Option V
  | [], _ => none
  | e :: t, k => if e.1 == k then some e.2 else getValue? t k

/-- Replace the first entry whose key is `k` by `(k, v)`; used to model an
in-place write through a `RefMut` (`get_mut`) and the overwriting case of
`DashMap::insert`. -/
def updateValue (k : K) (v : V) : List (K × V) → List (K × V)
  | [] => []
  | e :: t => if e.1 == k then (k, v) :: t else e :: updateValue k v t

/-- Model of `DashMap::insert`: overwrite the entry for `k` when present,
otherwise add a new entry. -/
def insertValue (k : K) (v : V) (l : List (K × V)) : List (K × V) :=
  if (getValue? l k).isSome then updateValue k v l else (k, v) :: l

/-- Model of `DashMap::remove` (the removed value itself is recovered with
`getValue?` where the caller needs it). -/
def eraseKey (k : K) (l : List (K × V)) : List (K × V) :=
  l.filter fun e => !(e.1 == k)

/-- Total number of messages buffered across all outbound queues of a
connection map; used to state that `broadcast`'s return value counts the
successful sends. -/
def queueSizes (l : List (K × List A)) : Nat :=
  (l.map fun e => e.2.length).sum

end AssocMap

/-! ## Scene model (`src/types.rs`) -/

/-- `Transform` from types.rs: position/rotation/scale, each `[f64; 3]`. -/
structure Transform where
  position : Float × Float × Float
  rotation : Float × Float × Float
  scale : Float × Float × Float

/-- `ObjectType` from types.rs. -/
inductive ObjectType where
  | Cube | Sphere | Cylinder | Camera | PointLight | SpotLight
  | AreaLight | SunLight | AssetRef

/-- `LensType` from types.rs. -/
inductive LensType where
  | Perspective | Orthographic

/-- `SensorFit` from types.rs. -/
inductive SensorFit where
  | Auto | Horizontal | Vertical

/-- `CameraProperties` from types.rs. -/
structure CameraProperties where
  lens_type : LensType
  focal_length : Float
  orthographic_scale : Float
  shift_x : Float
  shift_y : Float
  clip_start : Float
  clip_end : Float
  focal_distance : Float
  aperture_fstop : Float
  aperture_blades : Nat
  aperture_rotation : Float
  aperture_ratio : Float
  sensor_fit : SensorFit
  sensor_width : Float
  sensor_height : Float

/-- `PointLightProperties` from types.rs. -/
structure PointLightProperties where
  color : Float × Float × Float
  temperature : Float
  exposure : Float
  power : Float
  radius : Float
  soft_falloff : Bool
  normalize : Bool

/-- `SpotLightProperties` from types.rs. -/
structure SpotLightProperties where
  color : Float × Float × Float
  temperature : Float
  exposure : Float
  normalize : Bool
  power : Float
  radius : Float
  soft_falloff : Bool
  angle : Float
  blend : Float
  show_cone : Bool

/-- `AreaLightShape` from types.rs. -/
inductive AreaLightShape where
  | Rectangle | Square | Disk | Ellipse

/-- `AreaLightProperties` from types.rs. -/
structure AreaLightProperties where
  color : Float × Float × Float
  temperature : Float
  exposure : Float
  normalize : Bool
  power : Float
  shape : AreaLightShape
  size_x : Float
  size_y : Float
  size : Float

/-- `SunLightProperties` from types.rs. -/
structure SunLightProperties where
  color : Float × Float × Float
  temperature : Float
  exposure : Float
  normalize : Bool
  strength : Float
  angle : Float

/-- `ObjectProperties` from types.rs. -/
inductive ObjectProperties where
  | Camera (p : CameraProperties)
  | PointLight (p : PointLightProperties)
  | SpotLight (p : SpotLightProperties)
  | AreaLight (p : AreaLightProperties)
  | SunLight (p : SunLightProperties)

/-- `SceneObject` from types.rs. -/
structure SceneObject where
  object_id : Uuid
  name : String
  object_type : ObjectType
  asset_id : Option String
  asset_library : Option String
  transform : Transform
  properties : Option ObjectProperties
  created_by : Uuid
  last_updated_by : Uuid
  last_updated_at : Nat

/-- `User` from types.rs (`color` is `[u8; 3]`). -/
structure User where
  display_name : String
  color : Nat × Nat × Nat
  selected_object : Option Uuid
  connected_at : Nat

/-! ## Client payloads (`src/messages.rs`) -/

/-- `JoinSessionPayload` from messages.rs. -/
structure JoinSessionPayload where
  session_id : String
  display_name : String

/-- `CreateObjectPayload` from messages.rs. -/
structure CreateObjectPayload where
  object_id : Uuid
  name : String
  object_type : ObjectType
  asset_id : Option String
  asset_library : Option String
  transform : Transform
  properties : Option ObjectProperties

/-- `DeleteObjectPayload` from messages.rs. -/
structure DeleteObjectPayload where
  object_id : Uuid

/-- `UpdateTransformPayload` from messages.rs. -/
structure UpdateTransformPayload where
  object_id : Uuid
  transform : Transform

/-- `UpdatePropertiesPayload` from messages.rs. -/
structure UpdatePropertiesPayload where
  object_id : Uuid
  properties : ObjectProperties

/-- `UpdateNamePayload` from messages.rs. -/
structure UpdateNamePayload where
  object_id : Uuid
  name : String

/-- `SelectObjectPayload` from messages.rs (`None` means deselect). -/
structure SelectObjectPayload where
  object_id : Option Uuid

/-- Model of the `serde_json::Value` stored in a `LogEntry`: the raw payload
of the originating client event, kept typed (`serde_json::to_value` is an
injective embedding of each payload into JSON values). -/
inductive LogPayload where
  | joinSession (p : JoinSessionPayload)
  | createObject (p : CreateObjectPayload)
  | deleteObject (p : DeleteObjectPayload)
  | updateTransform (p : UpdateTransformPayload)
  | updateProperties (p : UpdatePropertiesPayload)
  | updateName (p : UpdateNamePayload)
  | selectObject (p : SelectObjectPayload)

/-- `LogEntry` from types.rs. -/
structure LogEntry where
  timestamp : Nat
  event_type : String
  payload : LogPayload

/-- `Session` from types.rs: the two `DashMap`s become association lists and
`event_log` stays a `Vec` (a list, appended at the back). -/
structure Session where
  session_id : String
  objects : List (Uuid × SceneObject)
  users : List (Uuid × User)
  event_log : List LogEntry

/-- `ClientEvent` from messages.rs. -/
inductive ClientEvent where
  | JoinSession (p : JoinSessionPayload)
  | LeaveSession
  | CreateObject (p : CreateObjectPayload)
  | DeleteObject (p : DeleteObjectPayload)
  | UpdateTransform (p : UpdateTransformPayload)
  | UpdateProperties (p : UpdatePropertiesPayload)
  | UpdateName (p : UpdateNamePayload)
  | SelectObject (p : SelectObjectPayload)

/-! ## Server payloads (`src/messages.rs`) -/

/-- `FullStateSyncPayload` from messages.rs. -/
structure FullStateSyncPayload where
  session : Session

/-- `ObjectCreatedPayload` from messages.rs. -/
structure ObjectCreatedPayload where
  object : SceneObject
  created_by : Uuid

/-- `ObjectDeletedPayload` from messages.rs. -/
structure ObjectDeletedPayload where
  object_id : Uuid
  deleted_by : Uuid

/-- `TransformUpdatedPayload` from messages.rs. -/
structure TransformUpdatedPayload where
  object_id : Uuid
  transform : Transform
  updated_by : Uuid

/-- `PropertiesUpdatedPayload` from messages.rs. -/
structure PropertiesUpdatedPayload where
  object_id : Uuid
  properties : ObjectProperties
  updated_by : Uuid

/-- `NameUpdatedPayload` from messages.rs. -/
structure NameUpdatedPayload where
  object_id : Uuid
  name : String
  updated_by : Uuid

/-- `UserJoinedPayload` from messages.rs. -/
structure UserJoinedPayload where
  user_id : Uuid
  display_name : String
  color : Nat × Nat × Nat

/-- `UserLeftPayload` from messages.rs. -/
structure UserLeftPayload where
  user_id : Uuid

/-- `UserSelectedPayload` from messages.rs. -/
structure UserSelectedPayload where
  user_id : Uuid
  object_id : Option Uuid

/-- `ErrorPayload` from messages.rs. -/
structure ErrorPayload where
  code : String
  message : String

/-- `ServerEvent` from messages.rs. -/
inductive ServerEvent where
  | FullStateSync (p : FullStateSyncPayload)
  | ObjectCreated (p : ObjectCreatedPayload)
  | ObjectDeleted (p : ObjectDeletedPayload)
  | TransformUpdated (p : TransformUpdatedPayload)
  | PropertiesUpdated (p : PropertiesUpdatedPayload)
  | NameUpdated (p : NameUpdatedPayload)
  | UserJoined (p : UserJoinedPayload)
  | UserLeft (p : UserLeftPayload)
  | UserSelected (p : UserSelectedPayload)
  | Error (p : ErrorPayload)

/-! ## Application state (`src/types.rs`) and broadcast (`src/websocket.rs`) -/

/-- `AppState` from types.rs.  `connections` maps a connection id to the
queue of messages buffered in its bounded outbound channel. -/
structure AppState where
  sessions : List (String × Session)
  connections : List (Uuid × List ServerEvent)
  connection_meta : List (Uuid × (String × Uuid))

/-- Capacity of each connection's outbound channel:
`mpsc::channel::<String>(32)` in `handle_connection`. -/
def channelCapacity : Nat := 32

/-- Model of `Sender::try_send` on a bounded channel: succeeds (appending
the message) iff the queue has room. -/
def trySend (q : List ServerEvent) (msg : ServerEvent) : Option (List ServerEvent) :=
  if q.length < channelCapacity then some (q ++ [msg]) else none

/-- Recursive core of `broadcast` from websocket.rs: walk the entries of
`connection_meta`, skip entries bound to a different session, skip the
excluded connection id, look the connection's sink up in `connections`,
and attempt a non-blocking send, counting the successes.  Returns the
updated queue map and the recipient count. -/
def broadcastAux (meta : List (Uuid × (String × Uuid)))
    (conns : List (Uuid × List ServerEvent)) (session_id : String)
    (msg : ServerEvent) (exclude : Option Uuid) :
    List (Uuid × List ServerEvent) × Nat :=
  match meta with
  | [] => (conns, 0)
  | (conn_id, (conn_session, _)) :: rest =>
    if conn_session == session_id then
      if exclude == some conn_id then
        broadcastAux rest conns session_id msg exclude
      else
        match getValue? conns conn_id with
        | some q =>
          match trySend q msg with
          | some q1 =>
            let r := broadcastAux rest (updateValue conn_id q1 conns) session_id msg exclude
            (r.1, r.2 + 1)
          | none => broadcastAux rest conns session_id msg exclude
        | none => broadcastAux rest conns session_id msg exclude
    else
      broadcastAux rest conns session_id msg exclude

/-- `broadcast` from websocket.rs: sends `msg` to every connection bound to
`session_id`, excluding `exclude` if provided; returns the updated queues
and the number of recipients the message was dispatched to. -/
def broadcast (state : AppState) (session_id : String) (msg : ServerEvent)
    (exclude : Option Uuid) : List (Uuid × List ServerEvent) × Nat :=
  broadcastAux state.connection_meta state.connections session_id msg exclude

/-! ## Event dispatcher (`src/websocket.rs`, `dispatch`) -/

/-- Result of one `dispatch` call: the new shared state, plus the messages
written directly to the acting connection's socket (`socket.send`), in
order.  All broadcast traffic is recorded inside `state.connections`. -/
structure DispatchResult where
  state : AppState
  toSender : List ServerEvent

/-- The silent no-op result (`return` before any mutation). -/
def noop (state : AppState) : DispatchResult :=
  { state := state, toSender := [] }

/-- The `SceneObject` literal built in the `CreateObject` arm of `dispatch`:
payload fields are copied over, `created_by` and `last_updated_by` are the
acting user, `last_updated_at` is the `now_ms()` value taken at the start
of the arm. -/
def builtObject (payload : CreateObjectPayload) (uid : Uuid) (now : Nat) :
    SceneObject :=
  { object_id := payload.object_id, name := payload.name
    object_type := payload.object_type, asset_id := payload.asset_id
    asset_library := payload.asset_library
    transform := payload.transform, properties := payload.properties
    created_by := uid, last_updated_by := uid, last_updated_at := now }

/-- `dispatch` from websocket.rs, one arm per `ClientEvent` variant.
`now` stands for the value of `now_ms()` and `freshId` for the
`Uuid::new_v4()` drawn in the `JoinSession` arm. -/
def dispatch (state : AppState) (connection_id : Uuid) (event : ClientEvent)
    (now freshId : Nat) : DispatchResult :=
  match event with
  | ClientEvent.JoinSession payload =>
    let session0 : Session :=
      match getValue? state.sessions payload.session_id with
      | some s => s
      | none =>
        { session_id := payload.session_id, objects := [], users := []
          event_log := [] }
    let user_id := freshId
    let newUser : User :=
      { display_name := payload.display_name, color := (255, 0, 0)
        selected_object := none, connected_at := now }
    let session1 : Session :=
      { session0 with users := insertValue user_id newUser session0.users }
    let sessions1 := insertValue payload.session_id session1 state.sessions
    let meta1 :=
      insertValue connection_id (payload.session_id, user_id) state.connection_meta
    let joined := ServerEvent.UserJoined
      { user_id := user_id, display_name := payload.display_name
        color := (255, 0, 0) }
    let conns1 :=
      (broadcastAux meta1 state.connections payload.session_id joined
        (some connection_id)).1
    { state :=
        { sessions := sessions1, connections := conns1, connection_meta := meta1 }
      toSender := [ServerEvent.FullStateSync { session := session1 }] }
  | ClientEvent.LeaveSession =>
    match getValue? state.connection_meta connection_id with
    | none => noop state
    | some (sid, uid) =>
      let meta1 := eraseKey connection_id state.connection_meta
      let sessions1 :=
        match getValue? state.sessions sid with
        | some session =>
          insertValue sid { session with users := eraseKey uid session.users }
            state.sessions
        | none => state.sessions
      let conns1 :=
        (broadcastAux meta1 state.connections sid
          (ServerEvent.UserLeft { user_id := uid }) (some connection_id)).1
      { state :=
          { sessions := sessions1, connections := conns1, connection_meta := meta1 }
        toSender := [] }
  | ClientEvent.CreateObject payload =>
    match getValue? state.connection_meta connection_id with
    | none => noop state
    | some (sid, uid) =>
      match getValue? state.sessions sid with
      | none => noop state
      | some session =>
        let object : SceneObject := builtObject payload uid now
        let session1 :=
          { session with
            objects := insertValue payload.object_id object session.objects
            event_log := session.event_log ++
              [{ timestamp := now, event_type := "CreateObject"
                 payload := LogPayload.createObject payload }] }
        let conns1 :=
          (broadcastAux state.connection_meta state.connections sid
            (ServerEvent.ObjectCreated { object := object, created_by := uid })
            none).1
        { state :=
            { sessions := insertValue sid session1 state.sessions
              connections := conns1, connection_meta := state.connection_meta }
          toSender := [] }
  | ClientEvent.DeleteObject payload =>
    match getValue? state.connection_meta connection_id with
    | none => noop state
    | some (sid, uid) =>
      match getValue? state.sessions sid with
      | none => noop state
      | some session =>
        let session1 :=
          { session with
            objects := eraseKey payload.object_id session.objects
            event_log := session.event_log ++
              [{ timestamp := now, event_type := "DeleteObject"
                 payload := LogPayload.deleteObject payload }] }
        let conns1 :=
          (broadcastAux state.connection_meta state.connections sid
            (ServerEvent.ObjectDeleted
              { object_id := payload.object_id, deleted_by := uid }) none).1
        { state :=
            { sessions := insertValue sid session1 state.sessions
              connections := conns1, connection_meta := state.connection_meta }
          toSender := [] }
  | ClientEvent.UpdateTransform payload =>
    match getValue? state.connection_meta connection_id with
    | none => noop state
    | some (sid, uid) =>
      match getValue? state.sessions sid with
      | none => noop state
      | some session =>
        let objects1 :=
          match getValue? session.objects payload.object_id with
          | some obj =>
            updateValue payload.object_id
              { obj with transform := payload.transform
                         last_updated_by := uid, last_updated_at := now }
              session.objects
          | none => session.objects
        let session1 :=
          { session with
            objects := objects1
            event_log := session.event_log ++
              [{ timestamp := now, event_type := "UpdateTransform"
                 payload := LogPayload.updateTransform payload }] }
        let conns1 :=
          (broadcastAux state.connection_meta state.connections sid
            (ServerEvent.TransformUpdated
              { object_id := payload.object_id
                transform := payload.transform, updated_by := uid }) none).1
        { state :=
            { sessions := insertValue sid session1 state.sessions
              connections := conns1, connection_meta := state.connection_meta }
          toSender := [] }
  | ClientEvent.UpdateProperties payload =>
    match getValue? state.connection_meta connection_id with
    | none => noop state
    | some (sid, uid) =>
      match getValue? state.sessions sid with
      | none => noop state
      | some session =>
        let objects1 :=
          match getValue? session.objects payload.object_id with
          | some obj =>
            updateValue payload.object_id
              { obj with properties := some payload.properties
                         last_updated_by := uid, last_updated_at := now }
              session.objects
          | none => session.objects
        let session1 :=
          { session with
            objects := objects1
            event_log := session.event_log ++
              [{ timestamp := now, event_type := "UpdateProperties"
                 payload := LogPayload.updateProperties payload }] }
        let conns1 :=
          (broadcastAux state.connection_meta state.connections sid
            (ServerEvent.PropertiesUpdated
              { object_id := payload.object_id
                properties := payload.properties, updated_by := uid }) none).1
        { state :=
            { sessions := insertValue sid session1 state.sessions
              connections := conns1, connection_meta := state.connection_meta }
          toSender := [] }
  | ClientEvent.UpdateName payload =>
    match getValue? state.connection_meta connection_id with
    | none => noop state
    | some (sid, uid) =>
      match getValue? state.sessions sid with
      | none => noop state
      | some session =>
        let objects1 :=
          match getValue? session.objects payload.object_id with
          | some obj =>
            updateValue payload.object_id
              { obj with name := payload.name
                         last_updated_by := uid, last_updated_at := now }
              session.objects
          | none => session.objects
        let session1 :=
          { session with
            objects := objects1
            event_log := session.event_log ++
              [{ timestamp := now, event_type := "UpdateName"
                 payload := LogPayload.updateName payload }] }
        let conns1 :=
          (broadcastAux state.connection_meta state.connections sid
            (ServerEvent.NameUpdated
              { object_id := payload.object_id, name := payload.name
                updated_by := uid }) none).1
        { state :=
            { sessions := insertValue sid session1 state.sessions
              connections := conns1, connection_meta := state.connection_meta }
          toSender := [] }
  | ClientEvent.SelectObject payload =>
    match getValue? state.connection_meta connection_id with
    | none => noop state
    | some (sid, uid) =>
      let sessions1 :=
        match getValue? state.sessions sid with
        | some session =>
          match getValue? session.users uid with
          | some user =>
            insertValue sid
              { session with
                users := updateValue uid
                  { user with selected_object := payload.object_id }
                  session.users }
              state.sessions
          | none => state.sessions
        | none => state.sessions
      let conns1 :=
        (broadcastAux state.connection_meta state.connections sid
          (ServerEvent.UserSelected
            { user_id := uid, object_id := payload.object_id }) none).1
      { state :=
          { sessions := sessions1, connections := conns1
            connection_meta := state.connection_meta }
        toSender := [] }

/-- True exactly on `ClientEvent::JoinSession`, the one event handled
without a `connection_meta` binding. -/
def isJoinEvent : ClientEvent → Bool
  | ClientEvent.JoinSession _ => true
  | _ => false

/-- The objects map of the session named `sid` before an event is applied
(empty when the session does not exist yet). -/
def sessionObjectsBefore (state : AppState) (sid : String) :
    List (Uuid × SceneObject) :=
  match getValue? state.sessions sid with
  | some s => s.objects
  | none => []

/-- The session snapshot a `dispatch` call sent to the acting connection
inside a `FullStateSync` reply, if it sent exactly that. -/
def syncedSession (r : DispatchResult) : Option Session :=
  match r.toSender with
  | [ServerEvent.FullStateSync p] => some p.session
  | _ => none

/-- One iteration of the inbound half of `handle_connection`'s loop, after
the text frame has been run through `parse_client_message` (`serde_json`
itself is external): on a parse error the frame is only logged
(`tracing::warn`) and dropped, on success the event is dispatched.  The
final `Bool` is whether the loop continues. -/
def handleParsedFrame (state : AppState) (connection_id : Uuid)
    (parsed : Except String ClientEvent) (now freshId : Nat) :
    AppState × List ServerEvent × Bool :=
  match parsed with
  | Except.error _ => (state, [], true)
  | Except.ok event =>
    let r := dispatch state connection_id event now freshId
    (r.state, r.toSender, true)

/-! ## Lock-scope traces

`dispatch` interacts with the session store through RAII guards (`RefMut`
from `entry().or_insert_with(..)` / `get_mut`, `Ref` from `get`), which
release the session's shard lock when dropped.  The traces below record,
per event arm, the order of lock acquisition/release relative to the
mutation, the log append, direct socket sends and `broadcast` calls, read
off from the guard scopes in websocket.rs:

* `JoinSession`: the guard returned by `sessions.entry(..).or_insert_with`
  is bound to a variable that is never dropped early, so it lives to the
  end of the match arm — after both `socket.send(FullStateSync)` and
  `broadcast(UserJoined)`.
* `LeaveSession`: `connection_meta.remove` happens first, then the
  `sessions.get` guard is scoped to the `if let` block and dropped before
  the broadcast.
* `CreateObject`/`DeleteObject`/`UpdateTransform`/`UpdateProperties`/
  `UpdateName`: an explicit `drop(session)` releases the guard after the
  mutate-and-log step and before the broadcast.
* `SelectObject`: the `sessions.get` guard is scoped to the `if let`
  block and dropped before the broadcast.
-/

/-- The per-arm actions whose ordering the lock traces record. -/
inductive LockAction where
  | acquireSession | releaseSession | mutateState | appendLog | sendSocket | fanOut
deriving DecidableEq

/-- The event kinds of `ClientEvent`, used to index the lock traces. -/
inductive EventKind where
  | joinSession | leaveSession | createObject | deleteObject
  | updateTransform | updateProperties | updateName | selectObject
deriving DecidableEq

/-- Guard-scope trace of each `dispatch` arm on its bound, session-present
path (see the section comment above for the derivation from websocket.rs). -/
def lockTrace : EventKind → List LockAction
  | EventKind.joinSession =>
    [LockAction.acquireSession, LockAction.mutateState, LockAction.sendSocket,
     LockAction.fanOut, LockAction.releaseSession]
  | EventKind.leaveSession =>
    [LockAction.mutateState, LockAction.acquireSession, LockAction.mutateState,
     LockAction.releaseSession, LockAction.fanOut]
  | EventKind.createObject =>
    [LockAction.acquireSession, LockAction.mutateState, LockAction.appendLog,
     LockAction.releaseSession, LockAction.fanOut]
  | EventKind.deleteObject =>
    [LockAction.acquireSession, LockAction.mutateState, LockAction.appendLog,
     LockAction.releaseSession, LockAction.fanOut]
  | EventKind.updateTransform =>
    [LockAction.acquireSession, LockAction.mutateState, LockAction.appendLog,
     LockAction.releaseSession, LockAction.fanOut]
  | EventKind.updateProperties =>
    [LockAction.acquireSession, LockAction.mutateState, LockAction.appendLog,
     LockAction.releaseSession, LockAction.fanOut]
  | EventKind.updateName =>
    [LockAction.acquireSession, LockAction.mutateState, LockAction.appendLog,
     LockAction.releaseSession, LockAction.fanOut]
  | EventKind.selectObject =>
    [LockAction.acquireSession, LockAction.mutateState,
     LockAction.releaseSession, LockAction.fanOut]

/-- Whether a trace performs a `broadcast` while at least one session guard
is still held (`d` counts the guards currently held). -/
def fanOutWhileHolding : List LockAction → Nat → Bool
  | [], _ => false
  | LockAction.acquireSession :: rest, d => fanOutWhileHolding rest (d + 1)
  | LockAction.releaseSession :: rest, d => fanOutWhileHolding rest (d - 1)
  | LockAction.fanOut :: rest, d =>
    if 0 < d then true else fanOutWhileHolding rest d
  | _ :: rest, d => fanOutWhileHolding rest d

/-! ## Concrete sample states

Small concrete program states used to evaluate the theorems below on
explicit inputs. -/

/-- The identity transform. -/
def wTransform : Transform :=
  { position := (0, 0, 0), rotation := (0, 0, 0), scale := (1, 1, 1) }

/-- A second transform, used as an update payload. -/
def wTransform2 : Transform :=
  { position := (5, 10, 15), rotation := (0, 0, 0), scale := (2, 2, 2) }

/-- User 7, "Alice". -/
def wUserA : User :=
  { display_name := "Alice", color := (255, 0, 0), selected_object := none
    connected_at := 1 }

/-- User 8, "Bob". -/
def wUserB : User :=
  { display_name := "Bob", color := (255, 0, 0), selected_object := none
    connected_at := 1 }

/-- A cube created by user 7, stored under object id 42. -/
def wObject : SceneObject :=
  { object_id := 42, name := "Cube", object_type := ObjectType.Cube
    asset_id := none, asset_library := none, transform := wTransform
    properties := none, created_by := 7, last_updated_by := 7
    last_updated_at := 1 }

/-- Session "s": one object (42), users 7 and 8, empty log. -/
def wSession : Session :=
  { session_id := "s", objects := [(42, wObject)]
    users := [(7, wUserA), (8, wUserB)], event_log := [] }

/-- A state with session "s"; connections 1 (user 7) and 2 (user 8) are
bound to it and both outbound queues are empty. -/
def wState : AppState :=
  { sessions := [("s", wSession)]
    connections := [(1, []), (2, [])]
    connection_meta := [(1, ("s", 7)), (2, ("s", 8))] }

/-- Session "s" with an empty objects map (and user 7), for events that
target a nonexistent object id. -/
def cexSession : Session :=
  { session_id := "s", objects := [], users := [(7, wUserA)], event_log := [] }

/-- A state with only connection 1 (user 7) bound to session "s", whose
objects map is empty. -/
def cexState : AppState :=
  { sessions := [("s", cexSession)]
    connections := [(1, [])]
    connection_meta := [(1, ("s", 7))] }

/-- A concrete `CreateObjectPayload` for object id 42. -/
def wCreatePayload : CreateObjectPayload :=
  { object_id := 42, name := "TestCube", object_type := ObjectType.Cube
    asset_id := none, asset_library := none, transform := wTransform2
    properties := none }

/-! ## Association-map lemmas -/

section AssocMapLemmas

variable {K V A : Type} [BEq K] [LawfulBEq K]

theorem getValue?_updateValue_ne {k c : K} (v : V) (h : c ≠ k) :
    ∀ l : List (K × V), getValue? (updateValue k v l) c = getValue? l c := by
  intro l
  induction l with
  | nil => rfl
  | cons e t ih =>
    obtain ⟨k1, v1⟩ := e
    by_cases hk : k1 = k
    · subst hk
      have h1 : (k1 == c) = false := beq_eq_false_iff_ne.mpr fun hh => h hh.symm
      simp [updateValue, getValue?, h1]
    · have hk1 : (k1 == k) = false := beq_eq_false_iff_ne.mpr hk
      simp only [updateValue, hk1, Bool.false_eq_true, if_false, getValue?, ih]

theorem getValue?_updateValue_self {k : K} (v : V) :
    ∀ l : List (K × V), (getValue? l k).isSome →
      getValue? (updateValue k v l) k = some v := by
  intro l
  induction l with
  | nil => intro h; simp [getValue?] at h
  | cons e t ih =>
    obtain ⟨k1, v1⟩ := e
    intro h
    by_cases hk : (k1 == k) = true
    · simp only [updateValue, hk, if_true, getValue?, beq_self_eq_true]
    · rw [Bool.not_eq_true] at hk
      simp only [updateValue, hk, Bool.false_eq_true, if_false, getValue?]
      refine ih ?_
      simpa [getValue?, hk] using h

theorem getValue?_insertValue_self {k : K} (v : V) (l : List (K × V)) :
    getValue? (insertValue k v l) k = some v := by
  unfold insertValue
  by_cases h : (getValue? l k).isSome
  · rw [if_pos h]; exact getValue?_updateValue_self v l h
  · rw [if_neg h]; simp [getValue?]

theorem getValue?_insertValue_ne {k c : K} (v : V) (h : c ≠ k)
    (l : List (K × V)) :
    getValue? (insertValue k v l) c = getValue? l c := by
  unfold insertValue
  by_cases hs : (getValue? l k).isSome
  · rw [if_pos hs]; exact getValue?_updateValue_ne v h l
  · rw [if_neg hs]
    have h1 : (k == c) = false := beq_eq_false_iff_ne.mpr fun hh => h hh.symm
    simp [getValue?, h1]

theorem length_updateValue {k : K} (v : V) :
    ∀ l : List (K × V), (updateValue k v l).length = l.length := by
  intro l
  induction l with
  | nil => rfl
  | cons e t ih =>
    by_cases hk : (e.1 == k) = true
    · simp [updateValue, hk]
    · simp [updateValue, hk, ih]

theorem length_insertValue_isSome {k : K} (v : V) (l : List (K × V))
    (h : (getValue? l k).isSome) :
    (insertValue k v l).length = l.length := by
  unfold insertValue
  rw [if_pos h]
  exact length_updateValue v l

theorem eraseKey_not_present {k : K} :
    ∀ l : List (K × V), getValue? l k = none → eraseKey k l = l := by
  intro l
  induction l with
  | nil => intro _; rfl
  | cons e t ih =>
    intro h
    simp only [getValue?] at h
    by_cases hk : (e.1 == k) = true
    · rw [if_pos hk] at h; exact absurd h (by simp)
    · rw [if_neg hk] at h
      simp only [eraseKey, List.filter]
      have : (!(e.1 == k)) = true := by simp_all
      rw [this]
      have ht := ih h
      simp only [eraseKey] at ht
      rw [ht]

theorem queueSizes_updateValue_append {c : K} {q : List A} (m : A) :
    ∀ l : List (K × List A), getValue? l c = some q →
      queueSizes (updateValue c (q ++ [m]) l) = queueSizes l + 1 := by
  intro l
  induction l with
  | nil => intro h; simp [getValue?] at h
  | cons e t ih =>
    intro h
    simp only [getValue?] at h
    by_cases hk : (e.1 == c) = true
    · rw [if_pos hk] at h
      have hq : e.2 = q := by injection h
      simp only [updateValue, hk, if_true, queueSizes, List.map, List.sum_cons, hq]
      simp [List.length_append]
      omega
    · rw [if_neg hk] at h
      simp only [updateValue, hk, Bool.false_eq_true, if_false]
      simp only [queueSizes, List.map, List.sum_cons] at *
      rw [ih h]
      omega

end AssocMapLemmas

/-! ## Broadcast lemmas -/

theorem broadcastAux_not_bound {sid : String} {c : Uuid}
    (msg : ServerEvent) (excl : Option Uuid) :
    ∀ (meta : List (Uuid × (String × Uuid)))
      (conns : List (Uuid × List ServerEvent)),
      (∀ u, (c, (sid, u)) ∉ meta) →
      getValue? (broadcastAux meta conns sid msg excl).1 c = getValue? conns c := by
  intro meta
  induction meta with
  | nil => intro conns _; rfl
  | cons e rest ih =>
    obtain ⟨c0, s0, u0⟩ := e
    intro conns h
    have hrest : ∀ u, (c, (sid, u)) ∉ rest := by
      intro u hu
      exact h u (List.mem_cons_of_mem _ hu)
    by_cases hs : (s0 == sid) = true
    · have hs0 : s0 = sid := eq_of_beq hs
      subst hs0
      have hc0 : c0 ≠ c := by
        intro hh
        subst hh
        exact h u0 (List.mem_cons_self _ _)
      by_cases he : (excl == some c0) = true
      · simp only [broadcastAux, beq_self_eq_true, he, if_true]
        exact ih conns hrest
      · cases hq : getValue? conns c0 with
        | none =>
          simp only [broadcastAux, beq_self_eq_true, he, Bool.false_eq_true,
            if_false, if_true, hq]
          exact ih conns hrest
        | some q =>
          cases hts : trySend q msg with
          | none =>
            simp only [broadcastAux, beq_self_eq_true, he, Bool.false_eq_true,
              if_false, if_true, hq, hts]
            exact ih conns hrest
          | some q1 =>
            simp only [broadcastAux, beq_self_eq_true, he, Bool.false_eq_true,
              if_false, if_true, hq, hts]
            rw [ih (updateValue c0 q1 conns) hrest]
            exact getValue?_updateValue_ne q1 (fun hh => hc0 hh.symm) conns
    · rw [Bool.not_eq_true] at hs
      simp only [broadcastAux, hs, Bool.false_eq_true, if_false]
      exact ih conns hrest

theorem trySend_some {q q1 : List ServerEvent} {msg : ServerEvent}
    (h : trySend q msg = some q1) :
    q1 = q ++ [msg] ∧ q.length < channelCapacity := by
  unfold trySend at h
  by_cases hr : q.length < channelCapacity
  · rw [if_pos hr] at h
    injection h with hh
    exact ⟨hh.symm, hr⟩
  · rw [if_neg hr] at h
    cases h

theorem broadcastAux_sizes {sid : String} (msg : ServerEvent)
    (excl : Option Uuid) :
    ∀ (meta : List (Uuid × (String × Uuid)))
      (conns : List (Uuid × List ServerEvent)),
      queueSizes (broadcastAux meta conns sid msg excl).1 =
        queueSizes conns + (broadcastAux meta conns sid msg excl).2 := by
  intro meta
  induction meta with
  | nil => intro conns; rfl
  | cons e rest ih =>
    obtain ⟨c0, s0, u0⟩ := e
    intro conns
    by_cases hs : (s0 == sid) = true
    · by_cases he : (excl == some c0) = true
      · simp only [broadcastAux, hs, he, if_true]
        exact ih conns
      · cases hq : getValue? conns c0 with
        | none =>
          simp only [broadcastAux, hs, he, Bool.false_eq_true, if_false,
            if_true, hq]
          exact ih conns
        | some q =>
          cases hts : trySend q msg with
          | none =>
            simp only [broadcastAux, hs, he, Bool.false_eq_true, if_false,
              if_true, hq, hts]
            exact ih conns
          | some q1 =>
            obtain ⟨hq1, _⟩ := trySend_some hts
            subst hq1
            simp only [broadcastAux, hs, he, Bool.false_eq_true, if_false,
              if_true, hq, hts]
            rw [ih (updateValue c0 (q ++ [msg]) conns)]
            rw [queueSizes_updateValue_append msg conns hq]
            omega
    · rw [Bool.not_eq_true] at hs
      simp only [broadcastAux, hs, Bool.false_eq_true, if_false]
      exact ih conns

theorem broadcastAux_delivers {sid : String} {c u : Uuid} {q : List ServerEvent}
    (msg : ServerEvent) (excl : Option Uuid) :
    ∀ (meta : List (Uuid × (String × Uuid)))
      (conns : List (Uuid × List ServerEvent)),
      (meta.map Prod.fst).Nodup →
      (c, (sid, u)) ∈ meta →
      excl ≠ some c →
      getValue? conns c = some q →
      q.length < channelCapacity →
      getValue? (broadcastAux meta conns sid msg excl).1 c = some (q ++ [msg]) := by
  intro meta
  induction meta with
  | nil => intro conns _ hmem; cases hmem
  | cons e rest ih =>
    obtain ⟨c0, s0, u0⟩ := e
    intro conns hnd hmem hexcl hq hroom
    have hndrest : (rest.map Prod.fst).Nodup := (List.nodup_cons.mp hnd).2
    rcases List.mem_cons.mp hmem with hhead | htail
    · have hc0 : c = c0 := congrArg Prod.fst hhead
      have hsu : (sid, u) = (s0, u0) := congrArg Prod.snd hhead
      have hs0 : sid = s0 := congrArg Prod.fst hsu
      subst hc0; subst hs0
      have he : (excl == some c) = false :=
        beq_eq_false_iff_ne.mpr hexcl
      have hts : trySend q msg = some (q ++ [msg]) := by
        unfold trySend; rw [if_pos hroom]
      simp only [broadcastAux, beq_self_eq_true, he, Bool.false_eq_true,
        if_false, if_true, hq, hts]
      have hnotin : ∀ u1, (c, (sid, u1)) ∉ rest := by
        intro u1 hu
        have : c ∈ rest.map Prod.fst := List.mem_map_of_mem Prod.fst hu
        exact (List.nodup_cons.mp hnd).1 this
      rw [broadcastAux_not_bound msg excl rest _ hnotin]
      exact getValue?_updateValue_self _ conns (by rw [hq]; rfl)
    · have hc0 : c0 ≠ c := by
        intro hh
        subst hh
        have : c0 ∈ rest.map Prod.fst := List.mem_map_of_mem Prod.fst htail
        exact (List.nodup_cons.mp hnd).1 this
      by_cases hs : (s0 == sid) = true
      · by_cases he : (excl == some c0) = true
        · simp only [broadcastAux, hs, he, if_true]
          exact ih conns hndrest htail hexcl hq hroom
        · cases hq0 : getValue? conns c0 with
          | none =>
            simp only [broadcastAux, hs, he, Bool.false_eq_true, if_false,
              if_true, hq0]
            exact ih conns hndrest htail hexcl hq hroom
          | some q0 =>
            cases hts : trySend q0 msg with
            | none =>
              simp only [broadcastAux, hs, he, Bool.false_eq_true, if_false,
                if_true, hq0, hts]
              exact ih conns hndrest htail hexcl hq hroom
            | some q1 =>
              simp only [broadcastAux, hs, he, Bool.false_eq_true, if_false,
                if_true, hq0, hts]
              refine ih (updateValue c0 q1 conns) hndrest htail hexcl ?_ hroom
              rw [getValue?_updateValue_ne q1 (fun hh => hc0 hh.symm) conns]
              exact hq
      · rw [Bool.not_eq_true] at hs
        simp only [broadcastAux, hs, Bool.false_eq_true, if_false]
        exact ih conns hndrest htail hexcl hq hroom

theorem broadcastAux_queue_cases {sid : String} {c : Uuid} {q0 : List ServerEvent}
    (msg : ServerEvent) (excl : Option Uuid) :
    ∀ (meta : List (Uuid × (String × Uuid)))
      (conns : List (Uuid × List ServerEvent)),
      (meta.map Prod.fst).Nodup →
      getValue? conns c = some q0 →
      getValue? (broadcastAux meta conns sid msg excl).1 c = some q0 ∨
        (getValue? (broadcastAux meta conns sid msg excl).1 c = some (q0 ++ [msg]) ∧
          (∃ u, (c, (sid, u)) ∈ meta) ∧ excl ≠ some c) := by
  intro meta
  induction meta with
  | nil => intro conns _ hq; exact Or.inl hq
  | cons e rest ih =>
    obtain ⟨c0, s0, u0⟩ := e
    intro conns hnd hq
    have hndrest : (rest.map Prod.fst).Nodup := (List.nodup_cons.mp hnd).2
    have weaken :
        ∀ conns2 : List (Uuid × List ServerEvent),
          (getValue? (broadcastAux rest conns2 sid msg excl).1 c = some q0 ∨
            (getValue? (broadcastAux rest conns2 sid msg excl).1 c = some (q0 ++ [msg]) ∧
              (∃ u, (c, (sid, u)) ∈ rest) ∧ excl ≠ some c)) →
          getValue? (broadcastAux rest conns2 sid msg excl).1 c = some q0 ∨
            (getValue? (broadcastAux rest conns2 sid msg excl).1 c = some (q0 ++ [msg]) ∧
              (∃ u, (c, (sid, u)) ∈ ((c0, (s0, u0)) :: rest)) ∧ excl ≠ some c) := by
      intro conns2 hyp
      rcases hyp with h | ⟨h1, ⟨u, hu⟩, h3⟩
      · exact Or.inl h
      · exact Or.inr ⟨h1, ⟨u, List.mem_cons_of_mem _ hu⟩, h3⟩
    by_cases hs : (s0 == sid) = true
    · by_cases he : (excl == some c0) = true
      · simp only [broadcastAux, hs, he, if_true]
        exact weaken conns (ih conns hndrest hq)
      · cases hq1 : getValue? conns c0 with
        | none =>
          simp only [broadcastAux, hs, he, Bool.false_eq_true, if_false,
            if_true, hq1]
          exact weaken conns (ih conns hndrest hq)
        | some q1 =>
          cases hts : trySend q1 msg with
          | none =>
            simp only [broadcastAux, hs, he, Bool.false_eq_true, if_false,
              if_true, hq1, hts]
            exact weaken conns (ih conns hndrest hq)
          | some q2 =>
            simp only [broadcastAux, hs, he, Bool.false_eq_true, if_false,
              if_true, hq1, hts]
            by_cases hc : c0 = c
            · subst hc
              have hq10 : q0 = q1 := by rw [hq] at hq1; injection hq1
              subst hq10
              obtain ⟨hq2, _⟩ := trySend_some hts
              subst hq2
              have hnotin : ∀ u1, (c0, (sid, u1)) ∉ rest := by
                intro u1 hu
                have : c0 ∈ rest.map Prod.fst := List.mem_map_of_mem Prod.fst hu
                exact (List.nodup_cons.mp hnd).1 this
              right
              refine ⟨?_, ⟨u0, ?_⟩, ?_⟩
              · rw [broadcastAux_not_bound msg excl rest _ hnotin]
                exact getValue?_updateValue_self _ conns (by rw [hq1]; rfl)
              · rw [eq_of_beq hs]
                exact List.mem_cons_self _ _
              · intro hh
                rw [hh] at he
                simp at he
            · have hqc : getValue? (updateValue c0 q2 conns) c = some q0 := by
                rw [getValue?_updateValue_ne q2 (fun hh => hc hh.symm) conns]
                exact hq
              exact weaken (updateValue c0 q2 conns) (ih (updateValue c0 q2 conns) hndrest hqc)
    · rw [Bool.not_eq_true] at hs
      simp only [broadcastAux, hs, Bool.false_eq_true, if_false]
      exact weaken conns (ih conns hndrest hq)

/-! ## Claim theorems -/

/-- C6: an inbound text frame that fails to parse as a `ClientEvent`
(invalid JSON or unknown discriminator) is logged and discarded: the shared
state is returned unchanged, no outbound message is produced for any
connection, and the connection's loop continues. -/
theorem malformed_frame_discarded (state : AppState) (connection_id : Uuid)
    (e : String) (now freshId : Nat) :
    handleParsedFrame state connection_id (Except.error e) now freshId =
      (state, [], true) := rfl

/-- C3: every client event other than `JoinSession` dispatched for a
connection id with no `connection_meta` entry is a silent no-op: the state
(sessions, users, objects, event logs and all outbound queues) is returned
unchanged and no message is sent to any connection. -/
theorem unbound_connection_silent_noop (state : AppState)
    (connection_id : Uuid) (event : ClientEvent) (now freshId : Nat)
    (hnotjoin : isJoinEvent event = false)
    (hunbound : getValue? state.connection_meta connection_id = none) :
    dispatch state connection_id event now freshId = noop state := by
  cases event with
  | JoinSession p => simp [isJoinEvent] at hnotjoin
  | LeaveSession => simp only [dispatch, hunbound]
  | CreateObject p => simp only [dispatch, hunbound]
  | DeleteObject p => simp only [dispatch, hunbound]
  | UpdateTransform p => simp only [dispatch, hunbound]
  | UpdateProperties p => simp only [dispatch, hunbound]
  | UpdateName p => simp only [dispatch, hunbound]
  | SelectObject p => simp only [dispatch, hunbound]

/-- Witness for C3: `LeaveSession` on the never-bound connection id 5 of
the sample state leaves everything untouched. -/
theorem unbound_connection_silent_noop_witness :
    dispatch wState 5 ClientEvent.LeaveSession 9 99 = noop wState :=
  unbound_connection_silent_noop wState 5 ClientEvent.LeaveSession 9 99 rfl rfl

/-- C8: evaluation of the guard-scope traces.  The `JoinSession` arm of
`dispatch` performs its broadcast (and the direct `FullStateSync` send)
while the session guard obtained from `sessions.entry(..).or_insert_with`
is still held — the guard is only dropped at the end of the match arm —
whereas every other arm releases the session before broadcasting. -/
theorem join_session_broadcasts_while_locked :
    fanOutWhileHolding (lockTrace EventKind.joinSession) 0 = true ∧
    fanOutWhileHolding (lockTrace EventKind.leaveSession) 0 = false ∧
    fanOutWhileHolding (lockTrace EventKind.createObject) 0 = false ∧
    fanOutWhileHolding (lockTrace EventKind.deleteObject) 0 = false ∧
    fanOutWhileHolding (lockTrace EventKind.updateTransform) 0 = false ∧
    fanOutWhileHolding (lockTrace EventKind.updateProperties) 0 = false ∧
    fanOutWhileHolding (lockTrace EventKind.updateName) 0 = false ∧
    fanOutWhileHolding (lockTrace EventKind.selectObject) 0 = false := by
  decide

/-- C2: `JoinSession` binds the connection to the freshly generated user id
(`freshId` models the `Uuid::new_v4()` draw), and the `FullStateSync`
reply sent to the joining connection snapshots the session at the instant
of join: the snapshot's users map contains the joining user's own `User`
entry, and its objects map contains every object that existed in the
session before the join. -/
theorem join_session_full_state_sync (state : AppState)
    (connection_id : Uuid) (p : JoinSessionPayload) (now freshId : Nat) :
    Option.bind
        (syncedSession
          (dispatch state connection_id (ClientEvent.JoinSession p) now freshId))
        (fun s => getValue? s.users freshId) =
      some { display_name := p.display_name, color := (255, 0, 0)
             selected_object := none, connected_at := now } ∧
    (∀ oid obj,
      getValue? (sessionObjectsBefore state p.session_id) oid = some obj →
      Option.bind
          (syncedSession
            (dispatch state connection_id (ClientEvent.JoinSession p) now freshId))
          (fun s => getValue? s.objects oid) = some obj) ∧
    getValue?
        (dispatch state connection_id (ClientEvent.JoinSession p) now
          freshId).state.connection_meta connection_id =
      some (p.session_id, freshId) := by
  refine ⟨?_, ?_, ?_⟩
  · simp only [dispatch, syncedSession, Option.bind]
    exact getValue?_insertValue_self _ _
  · intro oid obj h
    simp only [sessionObjectsBefore] at h
    cases hs : getValue? state.sessions p.session_id with
    | none =>
      rw [hs] at h
      simp [getValue?] at h
    | some s0 =>
      rw [hs] at h
      simp only [dispatch, syncedSession, Option.bind, hs]
      exact h
  · simp only [dispatch]
    exact getValue?_insertValue_self _ _

/-- Witness for C2: joining session "s" of the sample state with fresh user
id 99 returns a snapshot still containing object 42. -/
theorem join_session_full_state_sync_witness :
    Option.bind
        (syncedSession
          (dispatch wState 3
            (ClientEvent.JoinSession { session_id := "s", display_name := "Carol" })
            9 99))
        (fun s => getValue? s.objects 42) = some wObject :=
  (join_session_full_state_sync wState 3
    { session_id := "s", display_name := "Carol" } 9 99).2.1 42 wObject rfl

/-- C7: `CreateObject` from a connection bound as user `uid` inserts a
`SceneObject` whose `created_by` and `last_updated_by` are `uid` and whose
`last_updated_at` is the wall-clock timestamp of the mutation, the other
fields coming from the payload; the attempt is appended to the event log,
and the resulting `ObjectCreated` event is broadcast with no exclusion —
in particular the sender itself receives it whenever its queue has room. -/
theorem create_object_provenance (state : AppState) (connection_id : Uuid)
    (sid : String) (uid : Uuid) (sess : Session) (p : CreateObjectPayload)
    (now freshId : Nat)
    (hmeta : getValue? state.connection_meta connection_id = some (sid, uid))
    (hsess : getValue? state.sessions sid = some sess) :
    Option.bind
        (getValue?
          (dispatch state connection_id (ClientEvent.CreateObject p) now
            freshId).state.sessions sid)
        (fun s => getValue? s.objects p.object_id) =
      some (builtObject p uid now) ∧
    Option.map Session.event_log
        (getValue?
          (dispatch state connection_id (ClientEvent.CreateObject p) now
            freshId).state.sessions sid) =
      some (sess.event_log ++
        [{ timestamp := now, event_type := "CreateObject"
           payload := LogPayload.createObject p }]) ∧
    (dispatch state connection_id (ClientEvent.CreateObject p) now
        freshId).state.connections =
      (broadcastAux state.connection_meta state.connections sid
        (ServerEvent.ObjectCreated
          { object := builtObject p uid now, created_by := uid }) none).1 ∧
    (∀ q, (connection_id, (sid, uid)) ∈ state.connection_meta →
      (state.connection_meta.map Prod.fst).Nodup →
      getValue? state.connections connection_id = some q →
      q.length < channelCapacity →
      getValue?
          (dispatch state connection_id (ClientEvent.CreateObject p) now
            freshId).state.connections connection_id =
        some (q ++ [ServerEvent.ObjectCreated
          { object := builtObject p uid now, created_by := uid }])) := by
  refine ⟨?_, ?_, ?_, ?_⟩
  · simp only [dispatch, hmeta, hsess]
    rw [getValue?_insertValue_self]
    simp only [Option.bind]
    exact getValue?_insertValue_self _ _
  · simp only [dispatch, hmeta, hsess]
    rw [getValue?_insertValue_self]
    rfl
  · simp only [dispatch, hmeta, hsess]
  · intro q hmem hnd hq hroom
    simp only [dispatch, hmeta, hsess]
    exact broadcastAux_delivers _ none state.connection_meta state.connections
      hnd hmem (by simp) hq hroom

/-- Witness for C7: user 7 creates object 42 in the sample state; the
stored object carries the acting user and timestamp, and connection 1
(the sender) receives the `ObjectCreated` broadcast. -/
theorem create_object_provenance_witness :
    Option.bind
        (getValue?
          (dispatch wState 1 (ClientEvent.CreateObject wCreatePayload) 9
            99).state.sessions "s")
        (fun s => getValue? s.objects 42) = some (builtObject wCreatePayload 7 9) ∧
    getValue?
        (dispatch wState 1 (ClientEvent.CreateObject wCreatePayload) 9
          99).state.connections 1 =
      some [ServerEvent.ObjectCreated
        { object := builtObject wCreatePayload 7 9, created_by := 7 }] := by
  have h := create_object_provenance wState 1 "s" 7 wSession wCreatePayload 9 99
    rfl rfl
  refine ⟨h.1, ?_⟩
  have h4 := h.2.2.2 [] (by simp [wState]) (by decide) rfl (by decide)
  simpa using h4

/-- C10: `CreateObject` whose object id already exists in the session's
objects map silently replaces the stored `SceneObject` with the newly
built one (provenance reset to the acting user), keeps the objects map's
size unchanged, and still broadcasts `ObjectCreated`. -/
theorem create_object_overwrites_existing (state : AppState)
    (connection_id : Uuid) (sid : String) (uid : Uuid) (sess : Session)
    (p : CreateObjectPayload) (oldObj : SceneObject) (now freshId : Nat)
    (hmeta : getValue? state.connection_meta connection_id = some (sid, uid))
    (hsess : getValue? state.sessions sid = some sess)
    (hold : getValue? sess.objects p.object_id = some oldObj) :
    Option.bind
        (getValue?
          (dispatch state connection_id (ClientEvent.CreateObject p) now
            freshId).state.sessions sid)
        (fun s => getValue? s.objects p.object_id) =
      some (builtObject p uid now) ∧
    Option.map (fun s => s.objects.length)
        (getValue?
          (dispatch state connection_id (ClientEvent.CreateObject p) now
            freshId).state.sessions sid) =
      some sess.objects.length ∧
    (dispatch state connection_id (ClientEvent.CreateObject p) now
        freshId).state.connections =
      (broadcastAux state.connection_meta state.connections sid
        (ServerEvent.ObjectCreated
          { object := builtObject p uid now, created_by := uid }) none).1 := by
  refine ⟨?_, ?_, ?_⟩
  · simp only [dispatch, hmeta, hsess]
    rw [getValue?_insertValue_self]
    simp only [Option.bind]
    exact getValue?_insertValue_self _ _
  · simp only [dispatch, hmeta, hsess]
    rw [getValue?_insertValue_self]
    simp only [Option.map]
    rw [length_insertValue_isSome _ _ (by rw [hold]; rfl)]
  · simp only [dispatch, hmeta, hsess]

/-- Witness for C10: recreating the already-present object 42 in the sample
state keeps the objects map at one entry while resetting its provenance. -/
theorem create_object_overwrites_existing_witness :
    Option.bind
        (getValue?
          (dispatch wState 2 (ClientEvent.CreateObject wCreatePayload) 9
            99).state.sessions "s")
        (fun s => getValue? s.objects 42) = some (builtObject wCreatePayload 8 9) ∧
    Option.map (fun s => s.objects.length)
        (getValue?
          (dispatch wState 2 (ClientEvent.CreateObject wCreatePayload) 9
            99).state.sessions "s") = some wSession.objects.length :=
  have h := create_object_overwrites_existing wState 2 "s" 8 wSession
    wCreatePayload wObject 9 99 rfl rfl rfl
  ⟨h.1, h.2.1⟩

/-- C9: `JoinSession` from a connection already bound to `(s1, u1)`
overwrites the binding with the new session and fresh user id and inserts
the new user into the target session, but removes nothing from `s1`: the
old session (including `u1`'s `User` entry) is untouched, and no message —
in particular no `UserLeft` — is delivered to any connection that is not
bound to the newly joined session. -/
theorem rejoin_keeps_old_session_user (state : AppState)
    (connection_id : Uuid) (s1 : String) (u1 : Uuid) (sess1 : Session)
    (p : JoinSessionPayload) (now freshId : Nat)
    (hmeta : getValue? state.connection_meta connection_id = some (s1, u1))
    (hsess1 : getValue? state.sessions s1 = some sess1)
    (hne : p.session_id ≠ s1) :
    getValue?
        (dispatch state connection_id (ClientEvent.JoinSession p) now
          freshId).state.connection_meta connection_id =
      some (p.session_id, freshId) ∧
    getValue?
        (dispatch state connection_id (ClientEvent.JoinSession p) now
          freshId).state.sessions s1 = some sess1 ∧
    Option.bind
        (getValue?
          (dispatch state connection_id (ClientEvent.JoinSession p) now
            freshId).state.sessions p.session_id)
        (fun s => getValue? s.users freshId) =
      some { display_name := p.display_name, color := (255, 0, 0)
             selected_object := none, connected_at := now } ∧
    (∀ c,
      (∀ u2, (c, (p.session_id, u2)) ∉
        insertValue connection_id (p.session_id, freshId)
          state.connection_meta) →
      getValue?
          (dispatch state connection_id (ClientEvent.JoinSession p) now
            freshId).state.connections c = getValue? state.connections c) := by
  refine ⟨?_, ?_, ?_, ?_⟩
  · simp only [dispatch]
    exact getValue?_insertValue_self _ _
  · simp only [dispatch]
    rw [getValue?_insertValue_ne _ (fun hh => hne hh.symm)]
    exact hsess1
  · simp only [dispatch]
    rw [getValue?_insertValue_self]
    simp only [Option.bind]
    exact getValue?_insertValue_self _ _
  · intro c hnot
    simp only [dispatch]
    exact broadcastAux_not_bound _ _ _ _ hnot

/-- Witness for C9: connection 1 (bound to "s" as user 7) joins "t"; the
old session "s" is untouched and connection 2, bound to "s", receives
nothing. -/
theorem rejoin_keeps_old_session_user_witness :
    getValue?
        (dispatch wState 1
          (ClientEvent.JoinSession { session_id := "t", display_name := "Alice" })
          9 99).state.sessions "s" = some wSession ∧
    getValue?
        (dispatch wState 1
          (ClientEvent.JoinSession { session_id := "t", display_name := "Alice" })
          9 99).state.connections 2 = getValue? wState.connections 2 := by
  have h := rejoin_keeps_old_session_user wState 1 "s" 7 wSession
    { session_id := "t", display_name := "Alice" } 9 99 rfl rfl (by decide)
  refine ⟨h.2.1, h.2.2.2 2 ?_⟩
  intro u2 hmem
  simp [insertValue, getValue?, updateValue, wState] at hmem

/-- C4: `broadcast` only ever delivers to connections whose
`connection_meta` binding names exactly the given session id, never to the
excluded connection (every other queue is left untouched, so an event of
session A is never delivered to a connection bound to session B), and the
returned count equals the number of successful non-blocking sends (the
total growth of the outbound queues). -/
theorem broadcast_targets_and_count (state : AppState) (session_id : String)
    (msg : ServerEvent) (exclude : Option Uuid)
    (hnd : (state.connection_meta.map Prod.fst).Nodup) :
    (∀ c q0, getValue? state.connections c = some q0 →
      getValue? (broadcast state session_id msg exclude).1 c = some q0 ∨
        (getValue? (broadcast state session_id msg exclude).1 c =
            some (q0 ++ [msg]) ∧
          (∃ u, (c, (session_id, u)) ∈ state.connection_meta) ∧
          exclude ≠ some c)) ∧
    queueSizes (broadcast state session_id msg exclude).1 =
      queueSizes state.connections +
        (broadcast state session_id msg exclude).2 := by
  constructor
  · intro c q0 hq
    exact broadcastAux_queue_cases msg exclude state.connection_meta
      state.connections hnd hq
  · exact broadcastAux_sizes msg exclude state.connection_meta
      state.connections

/-- Witness for C4: broadcasting `UserLeft` into session "s" of the sample
state grows the queues by exactly the returned count. -/
theorem broadcast_targets_and_count_witness :
    queueSizes
        (broadcast wState "s" (ServerEvent.UserLeft { user_id := 7 }) none).1 =
      queueSizes wState.connections +
        (broadcast wState "s" (ServerEvent.UserLeft { user_id := 7 }) none).2 :=
  (broadcast_targets_and_count wState "s"
    (ServerEvent.UserLeft { user_id := 7 }) none (by decide)).2

/-- C1 counterexample: dispatching `UpdateTransform` for the nonexistent
object id 99 on a bound connection still delivers a `TransformUpdated`
broadcast — connection 1's queue goes from empty to holding that event —
contradicting the claim that no corresponding state-change broadcast is
sent. -/
theorem update_missing_object_still_broadcasts_cex :
    getValue? cexSession.objects 99 = none ∧
    getValue? cexState.connections 1 = some [] ∧
    getValue?
        (dispatch cexState 1
          (ClientEvent.UpdateTransform { object_id := 99, transform := wTransform2 })
          5 0).state.connections 1 =
      some [ServerEvent.TransformUpdated
        { object_id := 99, transform := wTransform2, updated_by := 7 }] :=
  ⟨rfl, rfl, rfl⟩

/-- C1 (amended): for `UpdateTransform`, `UpdateProperties`, `UpdateName`
and `DeleteObject` on an object id absent from the session's objects map,
a `LogEntry` for the attempt is appended and no object mutation occurs —
but the corresponding state-change broadcast (`TransformUpdated` /
`PropertiesUpdated` / `NameUpdated` / `ObjectDeleted`) is still sent to
the session: the presence guard wraps only the mutation, not the
broadcast.  Each conjunct characterizes the dispatch result completely:
the session keeps its objects map and gains exactly the log entry, and
the connection queues are exactly those produced by broadcasting the
corresponding event. -/
theorem missing_object_update_logs_and_broadcasts (state : AppState)
    (connection_id : Uuid) (sid : String) (uid : Uuid) (sess : Session)
    (oid : Uuid) (t : Transform) (props : ObjectProperties) (nm : String)
    (now freshId : Nat)
    (hmeta : getValue? state.connection_meta connection_id = some (sid, uid))
    (hsess : getValue? state.sessions sid = some sess)
    (hobj : getValue? sess.objects oid = none) :
    dispatch state connection_id
        (ClientEvent.UpdateTransform { object_id := oid, transform := t })
        now freshId =
      { state :=
          { sessions := insertValue sid
              { sess with event_log := sess.event_log ++
                  [{ timestamp := now, event_type := "UpdateTransform"
                     payload := LogPayload.updateTransform
                       { object_id := oid, transform := t } }] }
              state.sessions
            connections := (broadcastAux state.connection_meta
              state.connections sid
              (ServerEvent.TransformUpdated
                { object_id := oid, transform := t, updated_by := uid })
              none).1
            connection_meta := state.connection_meta }
        toSender := [] } ∧
    dispatch state connection_id
        (ClientEvent.UpdateProperties { object_id := oid, properties := props })
        now freshId =
      { state :=
          { sessions := insertValue sid
              { sess with event_log := sess.event_log ++
                  [{ timestamp := now, event_type := "UpdateProperties"
                     payload := LogPayload.updateProperties
                       { object_id := oid, properties := props } }] }
              state.sessions
            connections := (broadcastAux state.connection_meta
              state.connections sid
              (ServerEvent.PropertiesUpdated
                { object_id := oid, properties := props, updated_by := uid })
              none).1
            connection_meta := state.connection_meta }
        toSender := [] } ∧
    dispatch state connection_id
        (ClientEvent.UpdateName { object_id := oid, name := nm }) now freshId =
      { state :=
          { sessions := insertValue sid
              { sess with event_log := sess.event_log ++
                  [{ timestamp := now, event_type := "UpdateName"
                     payload := LogPayload.updateName
                       { object_id := oid, name := nm } }] }
              state.sessions
            connections := (broadcastAux state.connection_meta
              state.connections sid
              (ServerEvent.NameUpdated
                { object_id := oid, name := nm, updated_by := uid }) none).1
            connection_meta := state.connection_meta }
        toSender := [] } ∧
    dispatch state connection_id
        (ClientEvent.DeleteObject { object_id := oid }) now freshId =
      { state :=
          { sessions := insertValue sid
              { sess with event_log := sess.event_log ++
                  [{ timestamp := now, event_type := "DeleteObject"
                     payload := LogPayload.deleteObject { object_id := oid } }] }
              state.sessions
            connections := (broadcastAux state.connection_meta
              state.connections sid
              (ServerEvent.ObjectDeleted
                { object_id := oid, deleted_by := uid }) none).1
            connection_meta := state.connection_meta }
        toSender := [] } := by
  refine ⟨?_, ?_, ?_, ?_⟩
  · simp only [dispatch, hmeta, hsess, hobj]
  · simp only [dispatch, hmeta, hsess, hobj]
  · simp only [dispatch, hmeta, hsess, hobj]
  · simp only [dispatch, hmeta, hsess]
    rw [eraseKey_not_present _ hobj]

/-- Witness for C1 (amended): the four missing-object events on the sample
state with the empty objects map. -/
theorem missing_object_update_logs_and_broadcasts_witness :
    dispatch cexState 1
        (ClientEvent.UpdateName { object_id := 99, name := "ghost" }) 5 0 =
      { state :=
          { sessions := insertValue "s"
              { cexSession with event_log := cexSession.event_log ++
                  [{ timestamp := 5, event_type := "UpdateName"
                     payload := LogPayload.updateName
                       { object_id := 99, name := "ghost" } }] }
              cexState.sessions
            connections := (broadcastAux cexState.connection_meta
              cexState.connections "s"
              (ServerEvent.NameUpdated
                { object_id := 99, name := "ghost", updated_by := 7 }) none).1
            connection_meta := cexState.connection_meta }
        toSender := [] } :=
  (missing_object_update_logs_and_broadcasts cexState 1 "s" 7 cexSession 99
    wTransform2 (ObjectProperties.SunLight
      { color := (1, 1, 1), temperature := 6500, exposure := 0
        normalize := false, strength := 1, angle := 0 })
    "ghost" 5 0 rfl rfl rfl).2.2.1

/-- C5 counterexample: after a `SelectObject` dispatch from the bound
connection 1, the session's event log is still empty — not the one-entry
log `[⟨now, "SelectObject", payload⟩]` the claim requires. -/
theorem select_object_appends_no_log_cex :
    Option.map Session.event_log
        (getValue?
          (dispatch cexState 1
            (ClientEvent.SelectObject { object_id := some 42 }) 5 0).state.sessions
          "s") = some [] ∧
    some ([] : List LogEntry) ≠
      some [{ timestamp := 5, event_type := "SelectObject"
              payload := LogPayload.selectObject { object_id := some 42 } }] := by
  constructor
  · rfl
  · simp

/-- C5 (amended): `SelectObject` from a bound connection sets the acting
user's `selected_object` to the given object id (or none) and broadcasts
`UserSelected` to everyone in the session, but appends no `LogEntry`: the
equation below characterizes the dispatch result completely, and its
session keeps `sess.event_log` unchanged. -/
theorem select_object_sets_selection_without_log (state : AppState)
    (connection_id : Uuid) (sid : String) (uid : Uuid) (sess : Session)
    (user : User) (objId : Option Uuid) (now freshId : Nat)
    (hmeta : getValue? state.connection_meta connection_id = some (sid, uid))
    (hsess : getValue? state.sessions sid = some sess)
    (huser : getValue? sess.users uid = some user) :
    dispatch state connection_id
        (ClientEvent.SelectObject { object_id := objId }) now freshId =
      { state :=
          { sessions := insertValue sid
              { sess with
                users := updateValue uid { user with selected_object := objId } sess.users }
              state.sessions
            connections := (broadcastAux state.connection_meta
              state.connections sid
              (ServerEvent.UserSelected { user_id := uid, object_id := objId })
              none).1
            connection_meta := state.connection_meta }
        toSender := [] } := by
  simp only [dispatch, hmeta, hsess, huser]

/-- Witness for C5 (amended): user 7 selects object 42 in the sample
state. -/
theorem select_object_sets_selection_without_log_witness :
    dispatch cexState 1 (ClientEvent.SelectObject { object_id := some 42 }) 5 0 =
      { state :=
          { sessions := insertValue "s"
              { cexSession with
                users := updateValue 7 { wUserA with selected_object := some 42 } cexSession.users }
              cexState.sessions
            connections := (broadcastAux cexState.connection_meta
              cexState.connections "s"
              (ServerEvent.UserSelected { user_id := 7, object_id := some 42 })
              none).1
            connection_meta := cexState.connection_meta }
        toSender := [] } :=
  select_object_sets_selection_without_log cexState 1 "s" 7 cexSession wUserA
    (some 42) 5 0 rfl rfl rfl

end Meerkat
